import Mathlib

/-!
Verification of the `open-data-pvnet` GFS sampling pipeline.

This development shallowly embeds the core of the repository:

* `src/open_data_pvnet/nwp/gfs_dataset.py` — `handle_nan_values`, the
  `GFSDataSampler` constructor's valid-time post-processing, `_get_sample`
  and `_normalize_sample`;
* `src/open_data_pvnet/utils/batch_utils.py` — batch-file naming and
  `process_and_save_batches`;
* `src/open_data_pvnet/scripts/generate_combined_gsp.py` — the per-GSP
  fetch-and-concatenate loop of `main`.

Timestamps and lead-time offsets are modelled in minutes as `Int` (the
source uses pandas timestamps and nanosecond timedeltas; the unit choice is
an isomorphism). Cell values are `ℚ`; a missing value (NaN) is `none`.
Network and disk I/O are out of scope: the PVLive fetch and the
normalization-constant tables are parameters of the embedded functions.
-/

namespace OpenDataPvnet

/-- A 5-axis GFS data array, the result of `open_gfs`: coordinate labels for
each axis, plus a label-indexed cell lookup. Axes follow the canonical order
`(init_time_utc, step, channel, latitude, longitude)`. A cell holding `none`
models NaN. Only coordinates listed on the axes are meaningful. -/
structure DataArray where
  init_time_utc : List Int
  step : List Int
  channel : List String
  latitude : List ℚ
  longitude : List ℚ
  values : Int → Int → String → ℚ → ℚ → Option ℚ

/-- `dataset.fillna(fill_value)`: every NaN cell is replaced by `fill_value`;
coordinates are untouched. -/
def fillna (dataset : DataArray) (fill_value : ℚ) : DataArray :=
  { dataset with
    values := fun t s c la lo => some ((dataset.values t s c la lo).getD fill_value) }

/-- True when every cell at latitude `la` is NaN across all other axes
(`how="all"` along `latitude`). -/
def latAllNaN (dataset : DataArray) (la : ℚ) : Bool :=
  dataset.init_time_utc.all fun t =>
    dataset.step.all fun s =>
      dataset.channel.all fun c =>
        dataset.longitude.all fun lo => (dataset.values t s c la lo).isNone

/-- True when every cell at longitude `lo` is NaN across all other axes
(`how="all"` along `longitude`). -/
def lonAllNaN (dataset : DataArray) (lo : ℚ) : Bool :=
  dataset.init_time_utc.all fun t =>
    dataset.step.all fun s =>
      dataset.channel.all fun c =>
        dataset.latitude.all fun la => (dataset.values t s c la lo).isNone

/-- `dataset.dropna(dim="latitude", how="all")`: remove the latitude rows that
are entirely NaN. -/
def dropnaLatitude (dataset : DataArray) : DataArray :=
  { dataset with latitude := dataset.latitude.filter (fun la => !latAllNaN dataset la) }

/-- `dataset.dropna(dim="longitude", how="all")`: remove the longitude columns
that are entirely NaN. -/
def dropnaLongitude (dataset : DataArray) : DataArray :=
  { dataset with longitude := dataset.longitude.filter (fun lo => !lonAllNaN dataset lo) }

/-- `handle_nan_values(dataset, method, fill_value)` from
`nwp/gfs_dataset.py`: `"fill"` replaces NaN cells by `fill_value`; `"drop"`
removes all-NaN latitude rows, then all-NaN longitude columns of the result;
any other method raises `ValueError`. -/
def handle_nan_values (dataset : DataArray) (method : String) (fill_value : ℚ) :
    Except String DataArray :=
  if method = "fill" then
    Except.ok (fillna dataset fill_value)
  else if method = "drop" then
    Except.ok (dropnaLongitude (dropnaLatitude dataset))
  else
    Except.error "Invalid method for handling NaNs. Use 'fill' or 'drop'."

/-- C7: for every dataset and fill value, applying the missing-value handler
with the `"fill"` policy twice yields the same result as applying it once:
the first pass leaves no NaN cell, so the second pass is the identity. -/
theorem handle_nan_fill_idempotent (dataset : DataArray) (fill_value : ℚ) :
    (handle_nan_values dataset "fill" fill_value).bind
      (fun d => handle_nan_values d "fill" fill_value)
    = handle_nan_values dataset "fill" fill_value := by
  simp only [handle_nan_values, if_pos rfl, Except.bind]
  refine congrArg Except.ok ?_
  unfold fillna
  refine congrArg _ ?_
  funext t s c la lo
  simp

/-- C8: the missing-value handler rejects every policy other than `"fill"`
and `"drop"` with the `ValueError` message, for every dataset. -/
theorem handle_nan_invalid_method (dataset : DataArray) (method : String) (fill_value : ℚ)
    (hfill : method ≠ "fill") (hdrop : method ≠ "drop") :
    handle_nan_values dataset method fill_value
    = Except.error "Invalid method for handling NaNs. Use 'fill' or 'drop'." := by
  simp [handle_nan_values, hfill, hdrop]

/-- A concrete 1×1×1×1×1 data array used to instantiate theorems. -/
def exampleArray : DataArray :=
  { init_time_utc := [0]
    step := [60]
    channel := ["t"]
    latitude := [0]
    longitude := [0]
    values := fun _ _ _ _ _ => some 1 }

/-- Witness for C8: the policy `"bogus"` is neither `"fill"` nor `"drop"`, and
the handler rejects it on a concrete dataset. -/
theorem handle_nan_invalid_method_witness :
    (("bogus" : String) ≠ "fill" ∧ ("bogus" : String) ≠ "drop") ∧
    handle_nan_values exampleArray "bogus" 0
    = Except.error "Invalid method for handling NaNs. Use 'fill' or 'drop'." :=
  ⟨⟨by decide, by decide⟩,
    handle_nan_invalid_method exampleArray "bogus" 0 (by decide) (by decide)⟩

/-- The GFS section of the YAML configuration
(`config.input_data.nwp.gfs`): the window offsets, the grid resolution and
the provider name. All durations are minutes. -/
structure GFSConfig where
  interval_start_minutes : Int
  interval_end_minutes : Int
  time_resolution_minutes : Int
  provider : String

/-- A per-provider normalization table (`NWP_MEANS[p]` or `NWP_STDS[p]`): the
channel coordinate of the constants array and its per-channel value. -/
structure NWPTable where
  channel : List String
  value : String → ℚ

/-- The externally supplied constant tables `NWP_MEANS` and `NWP_STDS`,
keyed by provider name. -/
structure NWPConstants where
  NWP_MEANS : String → NWPTable
  NWP_STDS : String → NWPTable

/-- One sample slice: the data array after scalar selection of
`init_time_utc`, so with axes `(step, channel, latitude, longitude)`. -/
structure SampleSlice where
  step : List Int
  channel : List String
  latitude : List ℚ
  longitude : List ℚ
  values : Int → String → ℚ → ℚ → Option ℚ

/-- The lead-time offsets `_get_sample` computes:
`pd.date_range(t0 + interval_start, t0 + interval_end, freq=time_resolution)`
re-expressed relative to `t0`, i.e. `interval_start + k * resolution` for
`k = 0, 1, ...` while the result stays `≤ interval_end`. The list is empty
when the window is reversed (pandas returns an empty range); the embedding
is only used with a positive resolution, as pandas rejects a zero or
negative frequency. -/
def targetOffsets (config : GFSConfig) : List Int :=
  if 0 < config.time_resolution_minutes ∧
      config.interval_start_minutes ≤ config.interval_end_minutes then
    (List.range
        (((config.interval_end_minutes - config.interval_start_minutes) /
            config.time_resolution_minutes).toNat + 1)).map
      (fun (k : Nat) =>
        config.interval_start_minutes + (k : Int) * config.time_resolution_minutes)
  else []

/-- The message modelling the `KeyError` xarray raises from
`.sel(init_time_utc=t0, ...)` when `t0` is absent from the axis. -/
def initTimeKeyError : String := "KeyError: init_time_utc not all values found in index"

/-- The message modelling the `KeyError` xarray raises from `.sel(step=[...])`
when some requested step label is absent from the axis. -/
def stepKeyError : String := "KeyError: step not all values found in index"

/-- `dataset.sel(init_time_utc=t0, step=steps)`: label selection. The scalar
selection drops the `init_time_utc` axis; list selection on `step` keeps the
requested labels in the requested order, and raises a `KeyError` if `t0` or
any requested step label is absent from its axis. -/
def selSample (dataset : DataArray) (t0 : Int) (steps : List Int) :
    Except String SampleSlice :=
  if t0 ∈ dataset.init_time_utc then
    if steps.all (fun s => decide (s ∈ dataset.step)) then
      Except.ok
        { step := steps
          channel := dataset.channel
          latitude := dataset.latitude
          longitude := dataset.longitude
          values := fun s c la lo => dataset.values t0 s c la lo }
    else Except.error stepKeyError
  else Except.error initTimeKeyError

/-- `(dataset - means) / stds` on a slice: xarray arithmetic aligns the
`channel` coordinate with an inner join, so the resulting channel axis keeps
only the slice channels present in both tables, and every cell is scaled as
`(v - mean(c)) / std(c)`. NaN cells stay NaN. -/
def normalizeWith (means stds : NWPTable) (dataset : SampleSlice) : SampleSlice :=
  { dataset with
    channel := dataset.channel.filter
      (fun c => decide (c ∈ means.channel) && decide (c ∈ stds.channel))
    values := fun s c la lo =>
      (dataset.values s c la lo).map (fun v => (v - means.value c) / stds.value c) }

/-- `GFSDataSampler._normalize_sample`: returns
`(dataset - NWP_MEANS["gfs"]) / NWP_STDS["gfs"]` — the table key is the
string literal `"gfs"`, not the configuration's provider field. -/
def normalize_sample (consts : NWPConstants) (dataset : SampleSlice) : SampleSlice :=
  normalizeWith (consts.NWP_MEANS "gfs") (consts.NWP_STDS "gfs") dataset

/-- The normalizer as the specification words it: the constants come from the
tables indexed by the provider field of the configuration. -/
def normalizeSpec (consts : NWPConstants) (provider : String) (dataset : SampleSlice) :
    SampleSlice :=
  normalizeWith (consts.NWP_MEANS provider) (consts.NWP_STDS provider) dataset

/-- `GFSDataSampler._get_sample(t0)`: compute the target lead-time offsets
from the configured window, select the dataset at `init_time_utc=t0` and at
all of those step offsets (no intersection with the step axis is taken
first), then normalize. -/
def get_sample (consts : NWPConstants) (dataset : DataArray) (config : GFSConfig)
    (t0 : Int) : Except String SampleSlice :=
  (selSample dataset t0 (targetOffsets config)).map (normalize_sample consts)

/-- The sample extractor as the specification words it: intersect the
computed offsets with the offsets present on the dataset's step axis before
selecting, and fail with a no-valid-steps error naming `t0` when the
intersection is empty. -/
def getSampleSpec (consts : NWPConstants) (dataset : DataArray) (config : GFSConfig)
    (t0 : Int) : Except String SampleSlice :=
  let offs := (targetOffsets config).filter (fun s => decide (s ∈ dataset.step))
  if offs.isEmpty then
    Except.error ("No valid steps found for init time " ++ toString t0)
  else
    (selSample dataset t0 offs).map (normalize_sample consts)

/-- Whether an `Except` holds a success value. -/
def isOkExcept {ε α : Type} : Except ε α → Bool
  | Except.ok _ => true
  | Except.error _ => false

/-- The step axis of an extraction result (empty on failure). -/
def sampleSteps (e : Except String SampleSlice) : List Int :=
  match e with
  | Except.ok s => s.step
  | Except.error _ => []

/-- The configuration used for concrete instances: a one-hour window at
one-hour resolution, provider `"gfs"`. -/
def exampleConfig : GFSConfig :=
  { interval_start_minutes := 0
    interval_end_minutes := 60
    time_resolution_minutes := 60
    provider := "gfs" }

/-- A configuration whose provider field is not `"gfs"`. -/
def ukvConfig : GFSConfig :=
  { interval_start_minutes := 0
    interval_end_minutes := 60
    time_resolution_minutes := 60
    provider := "ukv" }

/-- Concrete constant tables: the `"gfs"` tables have mean 0 and std 1 on
channel `"t"`; every other provider key has mean 100 and std 1. -/
def exampleConstants : NWPConstants :=
  { NWP_MEANS := fun p =>
      if p = "gfs" then { channel := ["t"], value := fun _ => 0 }
      else { channel := ["t"], value := fun _ => 100 }
    NWP_STDS := fun _ => { channel := ["t"], value := fun _ => 1 } }

/-- A data array whose step axis holds only the offset 60, so the computed
grid `[0, 60]` of `exampleConfig` overlaps it without being contained in it. -/
def gappyArray : DataArray :=
  { init_time_utc := [0]
    step := [60]
    channel := ["t"]
    latitude := [0]
    longitude := [0]
    values := fun _ _ _ _ _ => some 1 }

/-- A data array whose step axis holds the full computed grid `[0, 60]`. -/
def fullArray : DataArray :=
  { init_time_utc := [0]
    step := [0, 60]
    channel := ["t"]
    latitude := [0]
    longitude := [0]
    values := fun _ _ _ _ _ => some 1 }

/-- Normalization does not touch the step axis. -/
theorem normalize_sample_step (consts : NWPConstants) (s : SampleSlice) :
    (normalize_sample consts s).step = s.step := rfl

/-- C1 counterexample: at `t0 = 0` on `gappyArray` with `exampleConfig`, the
computed offsets `[0, 60]` have a non-empty intersection `[60]` with the step
axis, so the claimed intersect-then-select procedure succeeds — but the code
selects all computed offsets without intersecting and fails on the absent
offset 0. -/
theorem get_sample_no_intersection_counterexample :
    (targetOffsets exampleConfig).filter (fun s => decide (s ∈ gappyArray.step)) ≠ [] ∧
    isOkExcept (get_sample exampleConstants gappyArray exampleConfig 0) = false ∧
    isOkExcept (getSampleSpec exampleConstants gappyArray exampleConfig 0) = true := by
  refine ⟨by decide, by decide, by decide⟩

/-- C1 amended: the sample extractor does not intersect the computed offsets
with the dataset's lead-time axis; for a `t0` present on the
initialization-time axis, whenever any computed offset is absent from the
step axis (in particular when all of them are, i.e. the intersection is
empty), selection fails with the step `KeyError`, which names the step
lookup and not `t0`. -/
theorem get_sample_missing_step (consts : NWPConstants) (dataset : DataArray)
    (config : GFSConfig) (t0 : Int)
    (ht : t0 ∈ dataset.init_time_utc)
    (hmiss : (targetOffsets config).all (fun s => decide (s ∈ dataset.step)) = false) :
    get_sample consts dataset config t0 = Except.error stepKeyError := by
  simp [get_sample, selSample, ht, hmiss, Except.map]

/-- Witness for C1 amended: on `gappyArray` the computed offset 0 is absent
from the step axis and extraction at `t0 = 0` fails with the step
`KeyError`. -/
theorem get_sample_missing_step_witness :
    ((0 : Int) ∈ gappyArray.init_time_utc ∧
      (targetOffsets exampleConfig).all (fun s => decide (s ∈ gappyArray.step)) = false) ∧
    get_sample exampleConstants gappyArray exampleConfig 0 = Except.error stepKeyError :=
  ⟨⟨by decide, by decide⟩,
    get_sample_missing_step exampleConstants gappyArray exampleConfig 0
      (by decide) (by decide)⟩

/-- The computed offset grid is non-empty for a well-formed window. -/
theorem targetOffsets_ne_nil (config : GFSConfig)
    (hres : 0 < config.time_resolution_minutes)
    (hint : config.interval_start_minutes ≤ config.interval_end_minutes) :
    targetOffsets config ≠ [] := by
  unfold targetOffsets
  rw [if_pos ⟨hres, hint⟩]
  intro h
  have hlen := congrArg List.length h
  simp at hlen

/-- The computed offset grid is strictly increasing. -/
theorem targetOffsets_pairwise (config : GFSConfig)
    (hres : 0 < config.time_resolution_minutes) :
    List.Pairwise (fun a b => a < b) (targetOffsets config) := by
  unfold targetOffsets
  by_cases h : 0 < config.time_resolution_minutes ∧
      config.interval_start_minutes ≤ config.interval_end_minutes
  · rw [if_pos h]
    refine List.Pairwise.map _ ?_ (List.pairwise_lt_range _)
    intro a b hab
    have hcast : (a : Int) < (b : Int) := by exact_mod_cast hab
    have hmul := mul_lt_mul_of_pos_right hcast hres
    exact add_lt_add_left hmul _
  · rw [if_neg h]
    exact List.Pairwise.nil

/-- C2: whenever extraction succeeds for a well-formed window, the returned
slice's lead-time offsets are non-empty, strictly increasing, contained in
the theoretical target grid, and contained in the dataset's step axis. -/
theorem get_sample_step_guarantee (consts : NWPConstants) (dataset : DataArray)
    (config : GFSConfig) (t0 : Int)
    (hres : 0 < config.time_resolution_minutes)
    (hint : config.interval_start_minutes ≤ config.interval_end_minutes)
    (hok : isOkExcept (get_sample consts dataset config t0) = true) :
    sampleSteps (get_sample consts dataset config t0) ≠ [] ∧
    List.Pairwise (fun a b => a < b) (sampleSteps (get_sample consts dataset config t0)) ∧
    sampleSteps (get_sample consts dataset config t0) ⊆ targetOffsets config ∧
    sampleSteps (get_sample consts dataset config t0) ⊆ dataset.step := by
  by_cases ht : t0 ∈ dataset.init_time_utc
  · by_cases hall : (targetOffsets config).all (fun s => decide (s ∈ dataset.step)) = true
    · have hsteps : sampleSteps (get_sample consts dataset config t0) = targetOffsets config := by
        simp [get_sample, selSample, ht, hall, sampleSteps, Except.map, normalize_sample,
          normalizeWith]
      rw [hsteps]
      refine ⟨targetOffsets_ne_nil config hres hint, targetOffsets_pairwise config hres,
        List.Subset.refl _, ?_⟩
      intro s hs
      exact of_decide_eq_true (List.all_eq_true.mp hall s hs)
    · rw [Bool.not_eq_true] at hall
      simp [get_sample, selSample, ht, hall, isOkExcept, Except.map] at hok
  · simp [get_sample, selSample, ht, isOkExcept, Except.map] at hok

/-- Witness for C2: on `fullArray`, extraction at `t0 = 0` succeeds and the
guarantee holds. -/
theorem get_sample_step_guarantee_witness :
    ((0 : Int) < exampleConfig.time_resolution_minutes ∧
      exampleConfig.interval_start_minutes ≤ exampleConfig.interval_end_minutes ∧
      isOkExcept (get_sample exampleConstants fullArray exampleConfig 0) = true) ∧
    (sampleSteps (get_sample exampleConstants fullArray exampleConfig 0) ≠ [] ∧
      List.Pairwise (fun a b => a < b)
        (sampleSteps (get_sample exampleConstants fullArray exampleConfig 0)) ∧
      sampleSteps (get_sample exampleConstants fullArray exampleConfig 0)
        ⊆ targetOffsets exampleConfig ∧
      sampleSteps (get_sample exampleConstants fullArray exampleConfig 0)
        ⊆ fullArray.step) :=
  ⟨⟨by decide, by decide, by decide⟩,
    get_sample_step_guarantee exampleConstants fullArray exampleConfig 0
      (by decide) (by decide) (by decide)⟩

/-- A concrete one-cell slice with value 5 on channel `"t"`. -/
def exampleSlice : SampleSlice :=
  { step := [0]
    channel := ["t"]
    latitude := [0]
    longitude := [0]
    values := fun _ _ _ _ => some 5 }

/-- C3 counterexample: with a configuration whose provider field is `"ukv"`,
the code normalizes with the `"gfs"` tables (yielding `(5 - 0)/1 = 5`) while
the claimed provider-indexed lookup would use the `"ukv"` tables (yielding
`(5 - 100)/1 = -95`). -/
theorem normalize_sample_provider_counterexample :
    (normalize_sample exampleConstants exampleSlice).values 0 "t" 0 0
      ≠ (normalizeSpec exampleConstants ukvConfig.provider exampleSlice).values 0 "t" 0 0 := by
  simp [normalize_sample, normalizeSpec, normalizeWith, exampleConstants, exampleSlice,
    ukvConfig]
  norm_num

/-- C3 amended: for every channel present in the slice, the normalizer
subtracts that channel's mean and divides by that channel's standard
deviation elementwise, preserving shape and coordinate labels — but the
constants are taken from the tables at the fixed key `"gfs"`, irrespective
of the configuration's provider field (the two agree only when the provider
is `"gfs"`). Stated for slices whose channels all occur in both `"gfs"`
tables, so that the inner-join channel alignment is the identity. -/
theorem normalize_sample_gfs_table (consts : NWPConstants) (s : SampleSlice)
    (hm : ∀ c ∈ s.channel, c ∈ (consts.NWP_MEANS "gfs").channel)
    (hs : ∀ c ∈ s.channel, c ∈ (consts.NWP_STDS "gfs").channel) :
    (normalize_sample consts s).step = s.step ∧
    (normalize_sample consts s).channel = s.channel ∧
    (normalize_sample consts s).latitude = s.latitude ∧
    (normalize_sample consts s).longitude = s.longitude ∧
    (normalize_sample consts s).values = fun st c la lo =>
      (s.values st c la lo).map
        (fun v => (v - (consts.NWP_MEANS "gfs").value c) / (consts.NWP_STDS "gfs").value c) := by
  refine ⟨rfl, ?_, rfl, rfl, rfl⟩
  refine List.filter_eq_self.mpr ?_
  intro c hc
  simp [hm c hc, hs c hc]

/-- Witness for C3 amended: `exampleSlice`'s only channel `"t"` occurs in
both `"gfs"` tables, and the normalization equations hold there. -/
theorem normalize_sample_gfs_table_witness :
    ((∀ c ∈ exampleSlice.channel, c ∈ (exampleConstants.NWP_MEANS "gfs").channel) ∧
      (∀ c ∈ exampleSlice.channel, c ∈ (exampleConstants.NWP_STDS "gfs").channel)) ∧
    ((normalize_sample exampleConstants exampleSlice).step = exampleSlice.step ∧
      (normalize_sample exampleConstants exampleSlice).channel = exampleSlice.channel ∧
      (normalize_sample exampleConstants exampleSlice).latitude = exampleSlice.latitude ∧
      (normalize_sample exampleConstants exampleSlice).longitude = exampleSlice.longitude ∧
      (normalize_sample exampleConstants exampleSlice).values = fun st c la lo =>
        (exampleSlice.values st c la lo).map
          (fun v => (v - (exampleConstants.NWP_MEANS "gfs").value c) /
            (exampleConstants.NWP_STDS "gfs").value c)) :=
  ⟨⟨by decide, by decide⟩,
    normalize_sample_gfs_table exampleConstants exampleSlice (by decide) (by decide)⟩

/-- The outcome of the `GFSDataSampler.__init__` valid-time post-processing:
whether the degenerate-configuration warning was logged, and the final
`valid_t0_times` sequence. -/
structure ResolverResult where
  warned : Bool
  times : List Int

/-- The valid-time post-processing of `GFSDataSampler.__init__`: `raw` is the
timestamp column returned by the external `find_valid_time_periods` (a black
box; the `start_dt → t0` column rename is label-level and elided). The code
logs the only-one-valid-t0 warning when the RAW sequence has at most one
element, and only then filters by the inclusive `start_time`/`end_time`
bounds. -/
def resolveValidTimes (raw : List Int) (start_time end_time : Option Int) :
    ResolverResult :=
  { warned := decide (raw.length ≤ 1)
    times :=
      let afterStart :=
        match start_time with
        | some st => raw.filter (fun t => decide (st ≤ t))
        | none => raw
      match end_time with
      | some et => afterStart.filter (fun t => decide (t ≤ et))
      | none => afterStart }

/-- C4 counterexample: with raw times `[0, 10, 20]` and bounds `[5, 15]`, the
final filtered sequence is `[10]` — one element — yet no warning is logged,
because the code checks the length before filtering. -/
theorem resolver_warning_counterexample :
    (resolveValidTimes [0, 10, 20] (some 5) (some 15)).times.length ≤ 1 ∧
    (resolveValidTimes [0, 10, 20] (some 5) (some 15)).warned = false := by
  decide

/-- C4 amended: the degenerate-configuration warning is logged exactly when
the raw valid-time sequence, BEFORE any `start_time`/`end_time` filtering,
has at most one element; filtering only removes elements, so a warning still
entails a final sequence of at most one element, but not conversely. -/
theorem resolver_warning_prefilter (raw : List Int) (start_time end_time : Option Int) :
    ((resolveValidTimes raw start_time end_time).warned = true ↔ raw.length ≤ 1) ∧
    (resolveValidTimes raw start_time end_time).times.length ≤ raw.length := by
  constructor
  · simp [resolveValidTimes]
  · unfold resolveValidTimes
    cases start_time with
    | none =>
      cases end_time with
      | none => simp
      | some et => simpa using List.length_filter_le _ raw
    | some st =>
      cases end_time with
      | none => simpa using List.length_filter_le _ raw
      | some et =>
        calc ((raw.filter (fun t => decide (st ≤ t))).filter
                (fun t => decide (t ≤ et))).length
            ≤ (raw.filter (fun t => decide (st ≤ t))).length :=
              List.length_filter_le _ _
          _ ≤ raw.length := List.length_filter_le _ _

/-- C6: when both bounds are supplied and the raw sequence from the external
search is strictly increasing (its contract), the final sequence contains
only timestamps inside the inclusive range, is strictly increasing, and has
no duplicates. -/
theorem resolver_range_filter (raw : List Int) (st et : Int)
    (hsorted : List.Pairwise (fun a b => a < b) raw) :
    (∀ t ∈ (resolveValidTimes raw (some st) (some et)).times, st ≤ t ∧ t ≤ et) ∧
    List.Pairwise (fun a b => a < b) (resolveValidTimes raw (some st) (some et)).times ∧
    (resolveValidTimes raw (some st) (some et)).times.Nodup := by
  have hpair : List.Pairwise (fun a b => a < b)
      (resolveValidTimes raw (some st) (some et)).times := by
    unfold resolveValidTimes
    exact (hsorted.filter _).filter _
  refine ⟨?_, hpair, hpair.imp (fun h => ne_of_lt h)⟩
  intro t ht
  unfold resolveValidTimes at ht
  simp only [List.mem_filter] at ht
  exact ⟨of_decide_eq_true ht.1.2, of_decide_eq_true ht.2⟩

/-- Witness for C6: raw times `[0, 10, 20]` are strictly increasing, and the
range-filter guarantee holds for the bounds `[5, 15]`. -/
theorem resolver_range_filter_witness :
    List.Pairwise (fun a b => a < b) ([0, 10, 20] : List Int) ∧
    ((∀ t ∈ (resolveValidTimes [0, 10, 20] (some 5) (some 15)).times, 5 ≤ t ∧ t ≤ 15) ∧
      List.Pairwise (fun a b => a < b)
        (resolveValidTimes [0, 10, 20] (some 5) (some 15)).times ∧
      (resolveValidTimes [0, 10, 20] (some 5) (some 15)).times.Nodup) :=
  ⟨by decide, resolver_range_filter [0, 10, 20] 5 15 (by decide)⟩

/-- The Python format specifier `f"{n:08d}"`: the decimal digits of `n`,
left-padded with zeros to width 8 (numbers with more than 8 digits are kept
whole). -/
def formatBatchIndex (n : Nat) : String :=
  let s := toString n
  if s.length < 8 then String.mk (List.replicate (8 - s.length) '0') ++ s else s

/-- The file name `BatchSaveFunc.__call__` builds:
`os.path.join(output_dir, f"batch_{batch_num:08d}.pt")`. -/
def batchFilename (output_dir : String) (batch_num : Nat) : String :=
  output_dir ++ "/" ++ ("batch_" ++ formatBatchIndex batch_num ++ ".pt")

/-- `process_and_save_batches(data_loader, output_dir, num_batches)` from
`utils/batch_utils.py`, viewed as the list of (file name, batch) pairs it
persists: batches are enumerated from 0 and saved under `batchFilename`; when
`num_batches` is given and non-zero (Python truthiness), the loop breaks
after saving that many batches. -/
def process_and_save_batches {α : Type} (data_loader : List α) (output_dir : String)
    (num_batches : Option Nat) : List (String × α) :=
  let limit :=
    match num_batches with
    | some k => if k = 0 then data_loader.length else min k data_loader.length
    | none => data_loader.length
  (data_loader.take limit).enum.map (fun p => (batchFilename output_dir p.1, p.2))

/-- C9: the batch saved at sequential index `k` (indices start at 0) is named
with the zero-padded 8-digit decimal of `k`; in particular index 10 uses the
8-digit literal `00000010`. -/
theorem batch_file_naming {α : Type} (output_dir : String) (data_loader : List α) (k : Nat)
    (hk : k < data_loader.length) :
    ((process_and_save_batches data_loader output_dir none).map Prod.fst)[k]?
      = some (output_dir ++ "/" ++ ("batch_" ++ formatBatchIndex k ++ ".pt")) ∧
    formatBatchIndex 10 = "00000010" := by
  constructor
  · simp [process_and_save_batches, batchFilename, List.getElem?_map, hk,
      List.getElem?_eq_getElem]
  · decide

/-- Witness for C9: eleven batches saved to `out`; the batch at index 10 is
named `out/batch_00000010.pt`. -/
theorem batch_file_naming_witness :
    10 < (List.replicate 11 (0 : Nat)).length ∧
    (((process_and_save_batches (List.replicate 11 (0 : Nat)) "out" none).map Prod.fst)[10]?
        = some ("out" ++ "/" ++ ("batch_" ++ formatBatchIndex 10 ++ ".pt")) ∧
      formatBatchIndex 10 = "00000010") :=
  ⟨by decide, batch_file_naming "out" (List.replicate 11 (0 : Nat)) 10 (by decide)⟩

/-- A fetched PVLive generation table for one GSP, abstracted to its list of
row payloads.

Modelled from the spec: `PVLiveData.get_data_between` lives in
`scripts/fetch_pvlive_data.py`, which is not under `src/`; per the
specification, per-GSP fetch failures in the data-collection scripts are
caught and surface as a missing response, so a failed or empty fetch is
modelled as `none` or an empty row list, never as an abort. -/
def GSPFetch : Type := Nat → Option (List ℚ)

/-- Whether the fetch for GSP `i` returned a non-empty table
(`df is not None and not df.empty`). -/
def hasData (fetch : GSPFetch) (i : Nat) : Bool :=
  match fetch i with
  | some df => !df.isEmpty
  | none => false

/-- One iteration of the GSP loop in `generate_combined_gsp.main`: a
non-empty fetch is tagged with its `gsp_id` column and appended to
`all_dataframes`; a missing or empty fetch appends the id to the warned
list instead. -/
def gspStep (fetch : GSPFetch) (acc : List (List (Nat × ℚ)) × List Nat) (gsp_id : Nat) :
    List (List (Nat × ℚ)) × List Nat :=
  match fetch gsp_id with
  | some df =>
    if df.isEmpty then (acc.1, acc.2 ++ [gsp_id])
    else (acc.1 ++ [df.map (fun v => (gsp_id, v))], acc.2)
  | none => (acc.1, acc.2 ++ [gsp_id])

/-- The `for gsp_id in range(0, 319)` loop of `generate_combined_gsp.main`:
the collected tagged tables and the warned GSP ids. -/
def collectGSP (fetch : GSPFetch) : List (List (Nat × ℚ)) × List Nat :=
  (List.range 319).foldl (gspStep fetch) ([], [])

/-- The observable outcome of `generate_combined_gsp.main`: either the
combined dataset was written (with the concatenated rows), or no GSP
returned data, an error was logged, and the function returned without
writing anything. -/
inductive GSPOutcome : Type
  | written (rows : List (Nat × ℚ)) : GSPOutcome
  | noData : GSPOutcome

/-- `generate_combined_gsp.main`, reduced to its outcome: when
`all_dataframes` is empty it logs an error and returns without writing;
otherwise it concatenates the collected tables and writes the combined
dataset (the rename/index/chunk/zarr steps are value-preserving packaging of
the concatenated rows). -/
def main (fetch : GSPFetch) : GSPOutcome :=
  if (collectGSP fetch).1.isEmpty then GSPOutcome.noData
  else GSPOutcome.written (collectGSP fetch).1.flatten

/-- Characterization of the GSP loop: starting from any accumulator, the ids
with non-empty data contribute their tagged tables in id order, and every
other id is warned. -/
theorem collectGSP_foldl (fetch : GSPFetch) (l : List Nat)
    (acc1 : List (List (Nat × ℚ))) (acc2 : List Nat) :
    l.foldl (gspStep fetch) (acc1, acc2)
      = (acc1 ++ (l.filter (fun i => hasData fetch i)).map
            (fun i => ((fetch i).getD []).map (fun v => (i, v))),
         acc2 ++ l.filter (fun i => !hasData fetch i)) := by
  induction l generalizing acc1 acc2 with
  | nil => simp
  | cons x xs ih =>
    cases hfx : fetch x with
    | none =>
      have hhd : hasData fetch x = false := by simp [hasData, hfx]
      simp [gspStep, hfx, hhd, ih]
    | some df =>
      by_cases hdf : df.isEmpty = true
      · have hhd : hasData fetch x = false := by simp [hasData, hfx, hdf]
        simp [gspStep, hfx, hdf, hhd, ih]
      · have hdf' : df.isEmpty = false := by simpa using hdf
        have hhd : hasData fetch x = true := by simp [hasData, hfx, hdf']
        simp [gspStep, hfx, hdf', hhd, ih, hasData]

/-- C5: the GSP loop runs over all ids 0–318 whatever the fetch results are —
each id either contributes its tagged non-empty table (in id order) or is
skipped with a warning, and the run writes the partial concatenation exactly
when at least one GSP returned data. -/
theorem gsp_fetch_failures_skipped (fetch : GSPFetch) :
    (collectGSP fetch).1
      = ((List.range 319).filter (fun i => hasData fetch i)).map
          (fun i => ((fetch i).getD []).map (fun v => (i, v))) ∧
    (collectGSP fetch).2 = (List.range 319).filter (fun i => !hasData fetch i) ∧
    (main fetch = GSPOutcome.written (collectGSP fetch).1.flatten
      ↔ (collectGSP fetch).1 ≠ []) := by
  refine ⟨by simp [collectGSP, collectGSP_foldl], by simp [collectGSP, collectGSP_foldl], ?_⟩
  unfold main
  by_cases h : (collectGSP fetch).1.isEmpty = true
  · simp [h, List.isEmpty_iff.mp h]
  · have hne : (collectGSP fetch).1 ≠ [] := by
      simpa [List.isEmpty_iff] using h
    simp [h, hne]

/-- C10: the GSP combining script writes no output exactly when every GSP id
in 0–318 yields a missing or empty response; equivalently, the combined
dataset is written only when at least one GSP returned non-empty data. -/
theorem gsp_no_output_iff_all_empty (fetch : GSPFetch) :
    main fetch = GSPOutcome.noData
      ↔ ((List.range 319).all (fun i => !hasData fetch i)) = true := by
  have hcol : (collectGSP fetch).1
      = ((List.range 319).filter (fun i => hasData fetch i)).map
          (fun i => ((fetch i).getD []).map (fun v => (i, v))) := by
    simp [collectGSP, collectGSP_foldl]
  have hempty : (collectGSP fetch).1.isEmpty = true
      ↔ ((List.range 319).all (fun i => !hasData fetch i)) = true := by
    rw [hcol]
    simp [List.isEmpty_iff, List.filter_eq_nil_iff, List.all_eq_true]
  unfold main
  by_cases h : (collectGSP fetch).1.isEmpty = true
  · simp [h, hempty.mp h]
  · have hall := (not_iff_not.mpr hempty).mp h
    simp [h, hall]

end OpenDataPvnet
